import Mathlib

/-!
Verification development for the oort3 benchmark harness (src/src/main.rs).

The repository's core is a benchmark orchestration engine: for a list of
scenarios it runs `rounds` head-to-head simulation trials (seeds 0..rounds)
per competitor, classifies each trial's terminal `Status` into result
buckets, and reports win-count and average-time deltas between a baseline
and a new competitor.

The external simulation engine (oort_simulator) is modelled abstractly: a
`SimEngine` gives, for a constructed simulation, the status and score time
after `n` steps, where the tick counter equals the number of steps taken
(the engine increments its tick once per step).  Machine floats (`f64`
elapsed times) are modelled as rationals; `u32`/`usize` values as `Nat`
with explicit 32-bit wrapping where the code casts to `i32`.  Rust panics
and `Result::Err` are both modelled as `Except.error`.
-/

/-- Terminal/running status reported by the external simulation engine
(`oort_simulator::scenario::Status`).  The victory team index is an `i32`
in Rust, modelled as `Int`. -/
inductive Status where
  | Running : Status
  | Victory : Int → Status
  | Draw : Status
  | Failed : Status
deriving DecidableEq, Repr

/-- `oort_simulator::simulation::Code`: source text, builtin reference, or
compiled wasm bytes. -/
inductive Code where
  | Rust : String → Code
  | Builtin : String → Code
  | Wasm : List Nat → Code
deriving DecidableEq, Repr

/-- Abstract model of one constructed simulation instance: status and
score time as functions of the number of `step()` calls performed.  The
tick counter after `n` steps is `n`. -/
structure SimEngine where
  statusAt : Nat → Status
  scoreAt : Nat → ℚ

/-- `Simulation::new`: the external engine, as a deterministic map from
(scenario name, seed, codes) to a simulation instance. -/
abbrev Engine := String → Nat → List Code → SimEngine

/-- The stepping loop of `run_simulation`:
`while sim.status() == Running { sim.step(); if sim.tick() == MAX_TICKS { return (Failed, sim.score_time()) } }`.
`n` is the number of steps taken so far (= the tick), `fuel` is the
remaining recursion budget (`maxTicks - n` at every call site). -/
def simLoop (sim : SimEngine) (maxTicks : Nat) : Nat → Nat → Status × ℚ
  | 0, n => (sim.statusAt n, sim.scoreAt n)
  | fuel + 1, n =>
    if sim.statusAt n = Status.Running then
      if n + 1 = maxTicks then (Status.Failed, sim.scoreAt (n + 1))
      else simLoop sim maxTicks fuel (n + 1)
    else (sim.statusAt n, sim.scoreAt n)

/-- `run_simulation(scenario_name, seed, codes)` from main.rs:81-92:
constructs the simulation and steps it until a terminal status or the
tick budget `MAX_TICKS` is hit, in which case it returns `Status::Failed`
with the score time at the cutoff. -/
def run_simulation (engine : Engine) (maxTicks : Nat) (scenario_name : String)
    (seed : Nat) (codes : List Code) : Status × ℚ :=
  simLoop (engine scenario_name seed codes) maxTicks maxTicks 0

/-- `struct Results` from main.rs:51-57: the per-round buckets of seeds by
outcome plus the elapsed times. -/
structure Results where
  team0_wins : List Nat
  team1_wins : List Nat
  draws : List Nat
  times : List ℚ
deriving DecidableEq, Repr

/-- `Results::default()`: all four vectors empty. -/
def emptyResults : Results :=
  { team0_wins := [], team1_wins := [], draws := [], times := [] }

/-- The error message `format!("Invalid team {}", s)` from main.rs:71. -/
def invalidTeamMsg (t : Int) : String :=
  "Invalid team " ++ toString t

/-- The error message from main.rs:74. -/
def runningMsg : String :=
  "Scenario should not be running"

/-- The `match status` arms of `run_simulations` (main.rs:68-75), acting on
one `(seed, status)`: `Victory{team:0}` → `team0_wins`, `Victory{team:1}`
→ `team1_wins`, `Victory{team:s}` → error, `Draw` → `draws`, `Failed` →
`team1_wins`, `Running` → error. -/
def classifySeed (acc : Results) (seed : Nat) (status : Status) : Except String Results :=
  match status with
  | Status.Victory t =>
    if t = 0 then Except.ok { acc with team0_wins := acc.team0_wins ++ [seed] }
    else if t = 1 then Except.ok { acc with team1_wins := acc.team1_wins ++ [seed] }
    else Except.error (invalidTeamMsg t)
  | Status.Draw => Except.ok { acc with draws := acc.draws ++ [seed] }
  | Status.Failed => Except.ok { acc with team1_wins := acc.team1_wins ++ [seed] }
  | Status.Running => Except.error runningMsg

/-- The `for (seed, (status, time)) in seed_statuses` loop of
`run_simulations` (main.rs:67-77): classify each seed, pushing its time
after the match, returning early on an error. -/
def processResults : List (Nat × (Status × ℚ)) → Results → Except String Results
  | [], acc => Except.ok acc
  | (seed, (status, time)) :: rest, acc =>
    match classifySeed acc seed status with
    | Except.error e => Except.error e
    | Except.ok acc2 => processResults rest { acc2 with times := acc2.times ++ [time] }

/-- `run_simulations(scenario_name, codes, rounds)` from main.rs:59-79:
runs one trial per seed in `0..rounds` (sequentially, in increasing seed
order) and folds the statuses into a `Results`. -/
def run_simulations (engine : Engine) (maxTicks : Nat) (scenario_name : String)
    (codes : List Code) (rounds : Nat) : Except String Results :=
  let seed_statuses : List (Nat × (Status × ℚ)) :=
    (List.range rounds).map
      (fun seed => (seed, run_simulation engine maxTicks scenario_name seed codes))
  processResults seed_statuses emptyResults

/-- Bool predicate: statuses the `run_simulations` match sends to
`team0_wins` (exactly `Victory{team:0}`). -/
def isTeam0Win : Status → Bool
  | Status.Victory t => t == 0
  | _ => false

/-- Bool predicate: statuses sent to `team1_wins` (`Victory{team:1}` and
`Failed`). -/
def isTeam1Win : Status → Bool
  | Status.Victory t => t == 1
  | Status.Failed => true
  | _ => false

/-- Bool predicate: statuses sent to `draws` (exactly `Draw`). -/
def isDrawStatus : Status → Bool
  | Status.Draw => true
  | _ => false

/-- Statuses `run_simulations` classifies without an error. -/
def goodStatus (s : Status) : Bool :=
  isTeam0Win s || isTeam1Win s || isDrawStatus s

/-- `oort_tools::AI`: a named competitor with source and compiled code. -/
structure AI where
  name : String
  source_code : String
  compiled_code : Code
deriving DecidableEq, Repr

/-- `struct BenchmarkResults` from main.rs:94-99. -/
structure BenchmarkResults where
  scene : String
  baseline : Results
  new : Results
deriving DecidableEq, Repr

/-- Two's-complement wrap of an integer into the `i32` range, modelling
Rust's `as i32` casts and release-mode arithmetic. -/
def i32wrap (x : Int) : Int :=
  (x + 2 ^ 31) % 2 ^ 32 - 2 ^ 31

/-- `len() as i32`: a `usize` cast to `i32`. -/
def usize_as_i32 (n : Nat) : Int :=
  i32wrap n

/-- `win_change` from main.rs:103: team-0 win count of the new round minus
that of the baseline round, computed in `i32`. -/
def winChange (b : BenchmarkResults) : Int :=
  i32wrap (usize_as_i32 b.new.team0_wins.length - usize_as_i32 b.baseline.team0_wins.length)

/-- The `avg_time` closure from main.rs:112-114:
`times.iter().sum() / times.len()` (`f64` modelled as ℚ; in ℚ the empty
case gives `0/0 = 0`, where `f64` gives NaN). -/
def avg_time (r : Results) : ℚ :=
  r.times.sum / (r.times.length : ℚ)

/-- The signed average-time change written by the `Display` impl
(main.rs:117-123): `-(baseline - new)` when new < baseline, `0` (printed
as None) when equal, `new - baseline` otherwise. -/
def avgTimeDelta (b : BenchmarkResults) : ℚ :=
  let baseline_avg_time := avg_time b.baseline
  let new_avg_time := avg_time b.new
  if new_avg_time < baseline_avg_time then -(baseline_avg_time - new_avg_time)
  else if new_avg_time = baseline_avg_time then 0
  else new_avg_time - baseline_avg_time

/-- The numeric values the `Display for BenchmarkResults` impl
(main.rs:101-127) derives and writes: the win change, the signed average
time change, and the two averages.  The impl has no failure path: it
always produces these values. -/
def benchDisplay (b : BenchmarkResults) : Int × ℚ × ℚ × ℚ :=
  (winChange b, avgTimeDelta b, avg_time b.baseline, avg_time b.new)

/-- The external collaborators consumed by `run_benchmark` and `main`:
the simulation engine, the tick budget constant `scenario::MAX_TICKS`,
`builtin::load_source`, `Compiler::compile`, and `scenario::load_safe`
(returning the scenario's `initial_code` list when it resolves). -/
structure BenchEnv where
  engine : Engine
  maxTicks : Nat
  builtinLoad : String → Except String Code
  compile : String → Except String (List Nat)
  loadSafe : String → Option (List Code)

/-- Message of the `expect` on `scenario::load_safe` (main.rs:131). -/
def unknownScenarioMsg (scene : String) : String :=
  "Unknown scenario " ++ scene

/-- Panic message for a builtin that does not resolve to Rust source
(main.rs:148). -/
def invalidBuiltinMsg : String :=
  "Invalid builtin code"

/-- Panic message for a non-Rust, non-builtin enemy code (main.rs:153). -/
def invalidCodeTypeMsg : String :=
  "Invalid code type"

/-- Panic message prefix for a failing builtin load (main.rs:150). -/
def invalidBuiltinErrMsg (e : String) : String :=
  "Invalid builtin code: " ++ e

/-- The display name given to the resolved enemy AI (main.rs:157). -/
def enemyName : String :=
  "Enemy"

/-- `run_simulations_packaged` from main.rs:129-138: resolves the scenario
(panicking — modelled as an error — when unknown) and runs the round with
the player as team 0 and the enemy as team 1. -/
def run_simulations_packaged (env : BenchEnv) (rounds : Nat) (scene : String)
    (player enemy : AI) : Except String Results :=
  match env.loadSafe scene with
  | none => Except.error (unknownScenarioMsg scene)
  | some _ =>
    run_simulations env.engine env.maxTicks scene
      [player.compiled_code, enemy.compiled_code] rounds

/-- `run_benchmark` from main.rs:140-172: resolves and compiles the
scenario's resident enemy, runs the baseline and new rounds, and packages
them.  Every `panic!`/`expect`/`unwrap` on the way is modelled as
`Except.error`. -/
def run_benchmark (env : BenchEnv) (rounds : Nat) (scene : String) (enemy : Code)
    (compiled_baseline compiled_new : AI) : Except String BenchmarkResults :=
  let srcE : Except String String :=
    match enemy with
    | Code.Rust src => Except.ok src
    | Code.Builtin bname =>
      match env.builtinLoad bname with
      | Except.ok (Code.Rust src) => Except.ok src
      | Except.ok _ => Except.error invalidBuiltinMsg
      | Except.error e => Except.error (invalidBuiltinErrMsg e)
    | _ => Except.error invalidCodeTypeMsg
  match srcE with
  | Except.error e => Except.error e
  | Except.ok src =>
    match env.compile src with
    | Except.error e => Except.error e
    | Except.ok wasm =>
      let enemy_ai : AI := { name := enemyName, source_code := src, compiled_code := Code.Wasm wasm }
      match run_simulations_packaged env rounds scene compiled_baseline enemy_ai with
      | Except.error e => Except.error e
      | Except.ok base_results =>
        match run_simulations_packaged env rounds scene compiled_new enemy_ai with
        | Except.error e => Except.error e
        | Except.ok new_results =>
          Except.ok { scene := scene, baseline := base_results, new := new_results }

/-- The matrix loop of `main` (main.rs:222-229): one `run_benchmark` per
scenario entry; a panic (error) in any entry aborts the whole collection,
so no partial list of reports is produced. -/
def run_matrix (env : BenchEnv) (rounds : Nat) :
    List (String × Code) → AI → AI → Except String (List BenchmarkResults)
  | [], _, _ => Except.ok []
  | sc :: rest, baseline, new =>
    match run_benchmark env rounds sc.1 sc.2 baseline new with
    | Except.error e => Except.error e
    | Except.ok b =>
      match run_matrix env rounds rest baseline new with
      | Except.error e => Except.error e
      | Except.ok bs => Except.ok (b :: bs)

/-! ## Concrete instances used in witnesses and counterexamples -/

/-- A simulation whose status and score are constant over steps. -/
def constSim (st : Status) (q : ℚ) : SimEngine :=
  { statusAt := fun _ => st, scoreAt := fun _ => q }

/-- An engine in which team 1 always wins immediately by the opponent
drawing: every simulation ends in `Draw` at step 0 with score 0. -/
def engDraw : Engine :=
  fun _ _ _ => constSim Status.Draw 0

/-- An engine in which seed 0 is an immediate team-0 victory (score 0) and
every other seed an immediate draw (score 1). -/
def engMixed : Engine :=
  fun _ seed _ => if seed = 0 then constSim (Status.Victory 0) 0 else constSim Status.Draw 1

/-- An engine whose simulations never terminate on their own: always
`Running`, with score time `n` after `n` steps. -/
def engRunning : Engine :=
  fun _ _ _ => { statusAt := fun _ => Status.Running, scoreAt := fun n => (n : ℚ) }

/-- An engine whose simulations report the terminal status `Failed`
immediately. -/
def engFailed : Engine :=
  fun _ _ _ => constSim Status.Failed 0

/-- An engine whose simulations report a victory for the out-of-contract
team index 2. -/
def engBadTeam : Engine :=
  fun _ _ _ => constSim (Status.Victory 2) 0

/-- Scenario name used in concrete runs. -/
def sceneDuel : String :=
  "duel"

/-- Second scenario name used in concrete runs. -/
def sceneChase : String :=
  "chase"

/-- The round produced by `engMixed` with 2 rounds: seed 0 a team-0 win
(time 0), seed 1 a draw (time 1). -/
def resMixed : Results :=
  { team0_wins := [0], team1_wins := [], draws := [1], times := [0, 1] }

/-- A concrete baseline round: one team-0 win, times averaging 2. -/
def resBase : Results :=
  { team0_wins := [0], team1_wins := [1], draws := [], times := [1, 3] }

/-- A concrete new round: no team-0 wins, times averaging 4. -/
def resNew : Results :=
  { team0_wins := [], team1_wins := [0, 1], draws := [], times := [4, 4] }

/-- A concrete benchmark comparison. -/
def benchAB : BenchmarkResults :=
  { scene := sceneDuel, baseline := resBase, new := resNew }

/-- A degenerate benchmark comparison whose rounds have empty time lists. -/
def benchEmpty : BenchmarkResults :=
  { scene := sceneDuel, baseline := emptyResults, new := emptyResults }

/-- A placeholder source text for concrete competitors. -/
def dummySrc : String :=
  "dummy source"

/-- A concrete baseline competitor. -/
def aiBase : AI :=
  { name := sceneDuel, source_code := dummySrc, compiled_code := Code.Wasm [] }

/-- A concrete new competitor. -/
def aiNew : AI :=
  { name := sceneChase, source_code := dummySrc, compiled_code := Code.Wasm [1] }

/-- A benchmark environment whose collaborators all succeed: every
simulation draws immediately, builtins resolve to Rust source,
compilation succeeds, and every scenario resolves. -/
def envOK : BenchEnv :=
  { engine := engDraw
    maxTicks := 100
    builtinLoad := fun _ => Except.ok (Code.Rust dummySrc)
    compile := fun _ => Except.ok []
    loadSafe := fun _ => some [] }

/-- A two-scenario matrix whose second scenario carries a `Code::Wasm`
enemy, which `run_benchmark` rejects (`panic!("Invalid code type")`). -/
def scenesWithBad : List (String × Code) :=
  [(sceneDuel, Code.Rust dummySrc), (sceneChase, Code.Wasm [])]

/-! ## Helper lemmas -/

theorem simLoop_timeout (sim : SimEngine) (maxTicks fuel n : Nat)
    (hfn : n + fuel = maxTicks) (hn : n < maxTicks)
    (hrun : ∀ m, m < maxTicks → sim.statusAt m = Status.Running) :
    simLoop sim maxTicks fuel n = (Status.Failed, sim.scoreAt maxTicks) := by
  induction fuel generalizing n with
  | zero => omega
  | succ fuel ih =>
    rw [simLoop, hrun n hn]
    simp only [if_pos rfl]
    by_cases h : n + 1 = maxTicks
    · simp [h]
    · rw [if_neg h]
      exact ih (n + 1) (by omega) (by omega)

theorem processResults_ok_spec (trials : List (Nat × (Status × ℚ))) (acc r : Results)
    (h : processResults trials acc = Except.ok r) :
    r.team0_wins = acc.team0_wins ++ (trials.filter (fun t => isTeam0Win t.2.1)).map Prod.fst ∧
    r.team1_wins = acc.team1_wins ++ (trials.filter (fun t => isTeam1Win t.2.1)).map Prod.fst ∧
    r.draws = acc.draws ++ (trials.filter (fun t => isDrawStatus t.2.1)).map Prod.fst ∧
    r.times = acc.times ++ trials.map (fun t => t.2.2) := by
  induction trials generalizing acc with
  | nil =>
    simp only [processResults, Except.ok.injEq] at h
    subst h
    simp
  | cons t rest ih =>
    obtain ⟨seed, status, time⟩ := t
    cases status with
    | Running => simp [processResults, classifySeed] at h
    | Draw =>
      simp only [processResults, classifySeed] at h
      obtain ⟨h0, h1, hd, ht⟩ := ih _ h
      simp [h0, h1, hd, ht, isTeam0Win, isTeam1Win, isDrawStatus, List.filter_cons]
    | Failed =>
      simp only [processResults, classifySeed] at h
      obtain ⟨h0, h1, hd, ht⟩ := ih _ h
      simp [h0, h1, hd, ht, isTeam0Win, isTeam1Win, isDrawStatus, List.filter_cons]
    | Victory team =>
      by_cases h0eq : team = 0
      · subst h0eq
        simp only [processResults, classifySeed, if_pos rfl] at h
        obtain ⟨h0, h1, hd, ht⟩ := ih _ h
        simp [h0, h1, hd, ht, isTeam0Win, isTeam1Win, isDrawStatus, List.filter_cons]
      · by_cases h1eq : team = 1
        · subst h1eq
          simp only [processResults, classifySeed] at h
          obtain ⟨h0, h1, hd, ht⟩ := ih _ h
          simp [h0, h1, hd, ht, isTeam0Win, isTeam1Win, isDrawStatus, List.filter_cons]
        · simp [processResults, classifySeed, h0eq, h1eq] at h

theorem processResults_ok_good (trials : List (Nat × (Status × ℚ))) (acc r : Results)
    (h : processResults trials acc = Except.ok r) :
    ∀ t ∈ trials, goodStatus t.2.1 = true := by
  induction trials generalizing acc with
  | nil => intro t ht; cases ht
  | cons t rest ih =>
    obtain ⟨seed, status, time⟩ := t
    intro u hu
    cases hu with
    | head =>
      cases status with
      | Running => simp [processResults, classifySeed] at h
      | Draw => simp [goodStatus, isDrawStatus]
      | Failed => simp [goodStatus, isTeam1Win]
      | Victory team =>
        by_cases h0eq : team = 0
        · simp [goodStatus, isTeam0Win, h0eq]
        · by_cases h1eq : team = 1
          · simp [goodStatus, isTeam1Win, h1eq]
          · simp [processResults, classifySeed, h0eq, h1eq] at h
    | tail _ hu =>
      cases status with
      | Running => simp [processResults, classifySeed] at h
      | Draw =>
        simp only [processResults, classifySeed] at h
        exact ih _ h u hu
      | Failed =>
        simp only [processResults, classifySeed] at h
        exact ih _ h u hu
      | Victory team =>
        by_cases h0eq : team = 0
        · subst h0eq
          simp only [processResults, classifySeed, if_pos rfl] at h
          exact ih _ h u hu
        · by_cases h1eq : team = 1
          · subst h1eq
            simp only [processResults, classifySeed] at h
            exact ih _ h u hu
          · simp [processResults, classifySeed, h0eq, h1eq] at h

theorem run_simulations_ok_spec (engine : Engine) (maxTicks : Nat) (sname : String)
    (codes : List Code) (rounds : Nat) (r : Results)
    (h : run_simulations engine maxTicks sname codes rounds = Except.ok r) :
    r.team0_wins = (List.range rounds).filter
      (fun s => isTeam0Win (run_simulation engine maxTicks sname s codes).1) ∧
    r.team1_wins = (List.range rounds).filter
      (fun s => isTeam1Win (run_simulation engine maxTicks sname s codes).1) ∧
    r.draws = (List.range rounds).filter
      (fun s => isDrawStatus (run_simulation engine maxTicks sname s codes).1) ∧
    r.times = (List.range rounds).map
      (fun s => (run_simulation engine maxTicks sname s codes).2) := by
  simp only [run_simulations] at h
  obtain ⟨h0, h1, hd, ht⟩ := processResults_ok_spec _ _ _ h
  refine ⟨?_, ?_, ?_, ?_⟩ <;>
    simp [h0, h1, hd, ht, emptyResults, List.filter_map, List.map_map, Function.comp_def]

theorem run_simulations_ok_goodAll (engine : Engine) (maxTicks : Nat) (sname : String)
    (codes : List Code) (rounds : Nat) (r : Results)
    (h : run_simulations engine maxTicks sname codes rounds = Except.ok r) :
    ∀ s, s < rounds → goodStatus (run_simulation engine maxTicks sname s codes).1 = true := by
  simp only [run_simulations] at h
  intro s hs
  have hmem : (s, run_simulation engine maxTicks sname s codes) ∈
      (List.range rounds).map
        (fun seed => (seed, run_simulation engine maxTicks sname seed codes)) :=
    List.mem_map.mpr ⟨s, List.mem_range.mpr hs, rfl⟩
  exact processResults_ok_good _ _ _ h _ hmem

theorem team0_team1_exclusive (s : Status) :
    ¬(isTeam0Win s = true ∧ isTeam1Win s = true) := by
  cases s with
  | Victory t =>
    simp only [isTeam0Win, isTeam1Win, beq_iff_eq, not_and]
    omega
  | Running => simp [isTeam0Win]
  | Draw => simp [isTeam0Win]
  | Failed => simp [isTeam0Win]

theorem team0_draw_exclusive (s : Status) :
    ¬(isTeam0Win s = true ∧ isDrawStatus s = true) := by
  cases s <;> simp [isTeam0Win, isDrawStatus]

theorem team1_draw_exclusive (s : Status) :
    ¬(isTeam1Win s = true ∧ isDrawStatus s = true) := by
  cases s <;> simp [isTeam1Win, isDrawStatus]

theorem i32wrap_eq_self (x : Int) (hlo : -(2 ^ 31) ≤ x) (hhi : x < 2 ^ 31) :
    i32wrap x = x := by
  simp only [i32wrap]
  omega

/-! ## Claim theorems -/

/-- C1 (counterexample): `run_simulations` with `rounds == 0` does not fail:
at a concrete scenario and competitor pair it returns `Ok` with the default
(all-empty) `Results`, and no error value is ever produced. -/
theorem C1_counterexample :
    run_simulations engDraw 100 sceneDuel [] 0 = Except.ok emptyResults ∧
    ∀ e, run_simulations engDraw 100 sceneDuel [] 0 ≠ Except.error e := by
  refine ⟨rfl, fun e h => ?_⟩
  have h2 : run_simulations engDraw 100 sceneDuel [] 0 = Except.ok emptyResults := rfl
  rw [h2] at h
  exact Except.noConfusion h

/-- C1 (amended): for every scenario and competitor pair, invoking
`run_simulations` with `rounds == 0` succeeds, returning the default
`Results` with all four lists empty; the code has no rounds-validation
check. -/
theorem C1_zero_rounds_returns_ok (engine : Engine) (maxTicks : Nat)
    (sname : String) (codes : List Code) :
    run_simulations engine maxTicks sname codes 0 = Except.ok emptyResults :=
  rfl

/-- C2: for every `rounds ≥ 1`, when `run_simulations` succeeds, the
outcome-category seed lists of the returned `Results` (`team0_wins`,
`team1_wins`, `draws` — `Failed`/timed-out seeds land in `team1_wins`)
are pairwise disjoint and their union as a set is exactly
`{0, ..., rounds-1}`. -/
theorem C2_buckets_partition (engine : Engine) (maxTicks : Nat) (sname : String)
    (codes : List Code) (rounds : Nat) (r : Results) (_hr : 1 ≤ rounds)
    (h : run_simulations engine maxTicks sname codes rounds = Except.ok r) :
    ((∀ s, s ∈ r.team0_wins → s ∈ r.team1_wins → False) ∧
     (∀ s, s ∈ r.team0_wins → s ∈ r.draws → False) ∧
     (∀ s, s ∈ r.team1_wins → s ∈ r.draws → False)) ∧
    (∀ s, (s ∈ r.team0_wins ∨ s ∈ r.team1_wins ∨ s ∈ r.draws) ↔ s < rounds) := by
  obtain ⟨h0, h1, hd, -⟩ := run_simulations_ok_spec engine maxTicks sname codes rounds r h
  constructor
  · refine ⟨?_, ?_, ?_⟩
    · intro s hs0 hs1
      rw [h0] at hs0
      rw [h1] at hs1
      exact team0_team1_exclusive _
        ⟨(List.mem_filter.mp hs0).2, (List.mem_filter.mp hs1).2⟩
    · intro s hs0 hsd
      rw [h0] at hs0
      rw [hd] at hsd
      exact team0_draw_exclusive _
        ⟨(List.mem_filter.mp hs0).2, (List.mem_filter.mp hsd).2⟩
    · intro s hs1 hsd
      rw [h1] at hs1
      rw [hd] at hsd
      exact team1_draw_exclusive _
        ⟨(List.mem_filter.mp hs1).2, (List.mem_filter.mp hsd).2⟩
  · intro s
    constructor
    · rintro (hs | hs | hs)
      · rw [h0] at hs
        exact List.mem_range.mp (List.mem_filter.mp hs).1
      · rw [h1] at hs
        exact List.mem_range.mp (List.mem_filter.mp hs).1
      · rw [hd] at hs
        exact List.mem_range.mp (List.mem_filter.mp hs).1
    · intro hs
      have hg := run_simulations_ok_goodAll engine maxTicks sname codes rounds r h s hs
      simp only [goodStatus, Bool.or_eq_true] at hg
      rcases hg with (hg | hg) | hg
      · exact Or.inl (by rw [h0]; exact List.mem_filter.mpr ⟨List.mem_range.mpr hs, hg⟩)
      · exact Or.inr (Or.inl (by rw [h1]; exact List.mem_filter.mpr ⟨List.mem_range.mpr hs, hg⟩))
      · exact Or.inr (Or.inr (by rw [hd]; exact List.mem_filter.mpr ⟨List.mem_range.mpr hs, hg⟩))

/-- Witness for C2: the concrete engine `engMixed` run for 2 rounds
produces `resMixed`, whose buckets partition `{0, 1}`. -/
theorem C2_witness :
    ((∀ s, s ∈ resMixed.team0_wins → s ∈ resMixed.team1_wins → False) ∧
     (∀ s, s ∈ resMixed.team0_wins → s ∈ resMixed.draws → False) ∧
     (∀ s, s ∈ resMixed.team1_wins → s ∈ resMixed.draws → False)) ∧
    (∀ s, (s ∈ resMixed.team0_wins ∨ s ∈ resMixed.team1_wins ∨ s ∈ resMixed.draws) ↔ s < 2) :=
  C2_buckets_partition engMixed 100 sceneDuel [] 2 resMixed (by omega) (by rfl)

/-- C3: a trial whose simulation is still `Running` at every tick below
`MAX_TICKS` returns `Status::Failed` (the timed-out outcome) with the
score time at the cutoff, the aggregation classifies a `Failed` status
into the `team1_wins` bucket without error, and on a successful round the
timed-out seed is a member of `team1_wins`. -/
theorem C3_timeout_is_team1_win (engine : Engine) (maxTicks : Nat) (sname : String)
    (codes : List Code) (seed rounds : Nat) (hmt : 0 < maxTicks)
    (hrun : ∀ n, n < maxTicks → (engine sname seed codes).statusAt n = Status.Running) :
    run_simulation engine maxTicks sname seed codes =
      (Status.Failed, (engine sname seed codes).scoreAt maxTicks) ∧
    (∀ acc s2, classifySeed acc s2 Status.Failed =
      Except.ok { acc with team1_wins := acc.team1_wins ++ [s2] }) ∧
    (∀ r, seed < rounds → run_simulations engine maxTicks sname codes rounds = Except.ok r →
      seed ∈ r.team1_wins) := by
  have hsim : run_simulation engine maxTicks sname seed codes =
      (Status.Failed, (engine sname seed codes).scoreAt maxTicks) := by
    simp only [run_simulation]
    exact simLoop_timeout _ maxTicks maxTicks 0 (by omega) hmt hrun
  refine ⟨hsim, fun acc s2 => rfl, fun r hseed hok => ?_⟩
  obtain ⟨-, h1, -, -⟩ := run_simulations_ok_spec engine maxTicks sname codes rounds r hok
  rw [h1]
  refine List.mem_filter.mpr ⟨List.mem_range.mpr hseed, ?_⟩
  rw [hsim]
  rfl

/-- Witness for C3: the always-running engine with tick budget 3 times out
with score time 3, and its seed 0 lands in `team1_wins` of a 1-round run. -/
theorem C3_witness :
    run_simulation engRunning 3 sceneDuel 0 [] =
      (Status.Failed, (engRunning sceneDuel 0 []).scoreAt 3) ∧
    (∀ acc s2, classifySeed acc s2 Status.Failed =
      Except.ok { acc with team1_wins := acc.team1_wins ++ [s2] }) ∧
    (∀ r, 0 < 1 → run_simulations engRunning 3 sceneDuel [] 1 = Except.ok r →
      0 ∈ r.team1_wins) :=
  C3_timeout_is_team1_win engRunning 3 sceneDuel [] 0 1 (by omega) (fun n _ => rfl)

/-- C4 (counterexample): an engine that reports the terminal status
`Failed` — a status other than `Victory{0}`, `Victory{1}`, `Draw` or
`Running` — does not make the round fail: the round succeeds, silently
coercing the seed into the `team1_wins` bucket. -/
theorem C4_counterexample :
    (∀ n, (engFailed sceneDuel 0 []).statusAt n = Status.Failed) ∧
    run_simulations engFailed 100 sceneDuel [] 1 =
      Except.ok { team0_wins := [], team1_wins := [0], draws := [], times := [0] } :=
  ⟨fun _ => rfl, rfl⟩

/-- C4 (amended): a `Victory` whose team index is outside `{0,1}` makes
the enclosing round fail with an error (never silently coerced), and a
`Running` status at classification likewise errors; but the out-of-list
status `Failed` is coerced into the `team1_wins` bucket rather than
failing. -/
theorem C4_bad_team_errors (engine : Engine) (maxTicks : Nat) (sname : String)
    (codes : List Code) (seed rounds : Nat) (t : Int) (hseed : seed < rounds)
    (hstat : (run_simulation engine maxTicks sname seed codes).1 = Status.Victory t)
    (ht0 : t ≠ 0) (ht1 : t ≠ 1) :
    (∃ e, run_simulations engine maxTicks sname codes rounds = Except.error e) ∧
    (∀ acc s2, classifySeed acc s2 Status.Running = Except.error runningMsg) ∧
    (∀ acc s2, classifySeed acc s2 Status.Failed =
      Except.ok { acc with team1_wins := acc.team1_wins ++ [s2] }) := by
  refine ⟨?_, fun acc s2 => rfl, fun acc s2 => rfl⟩
  cases hE : run_simulations engine maxTicks sname codes rounds with
  | error e => exact ⟨e, rfl⟩
  | ok r =>
    exfalso
    have hg := run_simulations_ok_goodAll engine maxTicks sname codes rounds r hE seed hseed
    rw [hstat] at hg
    simp [goodStatus, isTeam0Win, isTeam1Win, isDrawStatus, ht0, ht1] at hg

/-- Witness for C4 (amended): the engine reporting `Victory{team:2}` makes
a 1-round run fail with an error. -/
theorem C4_witness :
    (∃ e, run_simulations engBadTeam 100 sceneDuel [] 1 = Except.error e) ∧
    (∀ acc s2, classifySeed acc s2 Status.Running = Except.error runningMsg) ∧
    (∀ acc s2, classifySeed acc s2 Status.Failed =
      Except.ok { acc with team1_wins := acc.team1_wins ++ [s2] }) :=
  C4_bad_team_errors engBadTeam 100 sceneDuel [] 0 1 2 (by omega) (by rfl)
    (by decide) (by decide)

/-- C5: the derived win delta equals the team-0 win count of the new round
minus that of the baseline round, and the derived average-time delta
equals the mean of the new round's times minus the mean of the baseline
round's times (win counts below 2^31 so the `as i32` casts are lossless). -/
theorem C5_report_deltas (b : BenchmarkResults)
    (hb : b.baseline.team0_wins.length < 2 ^ 31)
    (hn : b.new.team0_wins.length < 2 ^ 31) :
    winChange b = (b.new.team0_wins.length : Int) - (b.baseline.team0_wins.length : Int) ∧
    avgTimeDelta b = avg_time b.new - avg_time b.baseline := by
  constructor
  · have e1 : usize_as_i32 b.new.team0_wins.length = (b.new.team0_wins.length : Int) := by
      simp only [usize_as_i32]
      exact i32wrap_eq_self _ (by omega) (by omega)
    have e2 : usize_as_i32 b.baseline.team0_wins.length =
        (b.baseline.team0_wins.length : Int) := by
      simp only [usize_as_i32]
      exact i32wrap_eq_self _ (by omega) (by omega)
    rw [winChange, e1, e2]
    exact i32wrap_eq_self _ (by omega) (by omega)
  · simp only [avgTimeDelta]
    split_ifs with h1 h2
    · ring
    · rw [h2, sub_self]
    · rfl

/-- Witness for C5 at a concrete comparison report. -/
theorem C5_witness :
    winChange benchAB =
      (benchAB.new.team0_wins.length : Int) - (benchAB.baseline.team0_wins.length : Int) ∧
    avgTimeDelta benchAB = avg_time benchAB.new - avg_time benchAB.baseline :=
  C5_report_deltas benchAB (by decide) (by decide)

/-- C6 (counterexample): with both rounds' time lists empty, the report
formatter still produces its derived values (the averages are `0/0`,
which is `0` in this rational embedding and NaN in `f64`) instead of
failing with an `InvalidConfiguration` error — the `Display` impl has no
error path. -/
theorem C6_counterexample :
    benchEmpty.baseline.times = [] ∧ benchEmpty.new.times = [] ∧
    benchDisplay benchEmpty = (0, 0, 0, 0) := by
  refine ⟨rfl, rfl, ?_⟩
  norm_num [benchDisplay, winChange, avgTimeDelta, avg_time, benchEmpty, emptyResults,
    usize_as_i32, i32wrap]

/-- C6 (amended): when both rounds' time lists are empty the comparator
does not error: it produces a report whose displayed averages are the
degenerate quotient `sum/len = 0/0` (0 in this rational embedding, NaN in
the `f64` code) and whose average-time delta is 0. -/
theorem C6_empty_times_report (b : BenchmarkResults)
    (hbase : b.baseline.times = []) (hnew : b.new.times = []) :
    benchDisplay b = (winChange b, 0, 0, 0) := by
  have ha : avg_time b.baseline = 0 := by
    simp [avg_time, hbase]
  have hb : avg_time b.new = 0 := by
    simp [avg_time, hnew]
  simp [benchDisplay, avgTimeDelta, ha, hb]

/-- Witness for C6 (amended) at the concrete empty comparison. -/
theorem C6_witness :
    benchDisplay benchEmpty = (winChange benchEmpty, 0, 0, 0) :=
  C6_empty_times_report benchEmpty rfl rfl

/-- C7: if any scenario of the matrix fails in `run_benchmark` (any of the
modelled panics/propagated errors), the whole matrix run returns an error
and no partial list of benchmark reports is produced. -/
theorem C7_matrix_fail_fast (env : BenchEnv) (rounds : Nat)
    (scenes : List (String × Code)) (base nw : AI)
    (h : ∃ sc ∈ scenes, ∃ e, run_benchmark env rounds sc.1 sc.2 base nw = Except.error e) :
    ∃ e2, run_matrix env rounds scenes base nw = Except.error e2 := by
  induction scenes with
  | nil =>
    obtain ⟨sc, hmem, -⟩ := h
    cases hmem
  | cons hd tl ih =>
    obtain ⟨sc, hmem, e, herr⟩ := h
    cases hE : run_benchmark env rounds hd.1 hd.2 base nw with
    | error e3 => exact ⟨e3, by simp [run_matrix, hE]⟩
    | ok b =>
      have hsc : sc ∈ tl := by
        cases hmem with
        | head =>
          rw [hE] at herr
          exact Except.noConfusion herr
        | tail _ h2 => exact h2
      obtain ⟨e3, hE3⟩ := ih ⟨sc, hsc, e, herr⟩
      exact ⟨e3, by simp [run_matrix, hE, hE3]⟩

/-- Witness for C7: a two-scenario matrix whose second scenario has an
invalid (already-compiled) enemy code aborts with an error. -/
theorem C7_witness :
    ∃ e2, run_matrix envOK 1 scenesWithBad aiBase aiNew = Except.error e2 :=
  C7_matrix_fail_fast envOK 1 scenesWithBad aiBase aiNew
    ⟨(sceneChase, Code.Wasm []), by decide, invalidCodeTypeMsg, by rfl⟩

/-- C8: trial execution is deterministic: two invocations of
`run_simulation` on the same scenario, seed and competitor pair — i.e.
against engines that construct the same simulation for those inputs —
return the same status and the same elapsed time. -/
theorem C8_deterministic (e1 e2 : Engine) (maxTicks : Nat) (sname : String)
    (seed : Nat) (codes : List Code)
    (h : e1 sname seed codes = e2 sname seed codes) :
    run_simulation e1 maxTicks sname seed codes =
      run_simulation e2 maxTicks sname seed codes := by
  simp only [run_simulation, h]

/-- Witness for C8: two runs at a concrete scenario, seed and pair agree. -/
theorem C8_witness :
    run_simulation engDraw 5 sceneDuel 0 [] = run_simulation engDraw 5 sceneDuel 0 [] :=
  C8_deterministic engDraw engDraw 5 sceneDuel 0 [] rfl

/-- C9: every successfully returned `Results` has exactly `rounds` elapsed
times. -/
theorem C9_times_length (engine : Engine) (maxTicks : Nat) (sname : String)
    (codes : List Code) (rounds : Nat) (r : Results)
    (h : run_simulations engine maxTicks sname codes rounds = Except.ok r) :
    r.times.length = rounds := by
  obtain ⟨-, -, -, ht⟩ := run_simulations_ok_spec engine maxTicks sname codes rounds r h
  simp [ht]

/-- Witness for C9 at the concrete two-round run of `engMixed`. -/
theorem C9_witness :
    run_simulations engMixed 100 sceneDuel [] 2 = Except.ok resMixed ∧
    resMixed.times.length = 2 :=
  ⟨by rfl, C9_times_length engMixed 100 sceneDuel [] 2 resMixed (by rfl)⟩

/-- C10: on success the elapsed-times list is index-aligned to seeds:
`times` is the map of the per-seed elapsed times over `0..rounds` in
increasing seed order, so `times[i]` is the elapsed time of the trial
with seed `i`. -/
theorem C10_times_seed_aligned (engine : Engine) (maxTicks : Nat) (sname : String)
    (codes : List Code) (rounds : Nat) (r : Results)
    (h : run_simulations engine maxTicks sname codes rounds = Except.ok r) :
    r.times = (List.range rounds).map
      (fun s => (run_simulation engine maxTicks sname s codes).2) ∧
    ∀ i, i < rounds →
      r.times[i]? = some (run_simulation engine maxTicks sname i codes).2 := by
  obtain ⟨-, -, -, ht⟩ := run_simulations_ok_spec engine maxTicks sname codes rounds r h
  refine ⟨ht, fun i hi => ?_⟩
  rw [ht, List.getElem?_map]
  simp [List.getElem?_range, hi]

/-- Witness for C10 at the concrete two-round run of `engMixed`. -/
theorem C10_witness :
    resMixed.times = (List.range 2).map
      (fun s => (run_simulation engMixed 100 sceneDuel s []).2) ∧
    ∀ i, i < 2 →
      resMixed.times[i]? = some (run_simulation engMixed 100 sceneDuel i []).2 :=
  C10_times_seed_aligned engMixed 100 sceneDuel [] 2 resMixed (by rfl)
